import Mathlib

/-!
Shallow embedding of the state-synchronization core of
`src/pages/DashboardHome.tsx` (johnasblasco/lms-frontend).

The component holds eight `useState` slices (categories, dashboardStats,
quickStats, isLoading, error, showForm, editingCategory, formData); they are
gathered into `ComponentState`.  Each async handler is embedded as a pure
function from the state and the (already resolved) remote response to the
resulting state, the ordered list of HTTP requests it issues, and a flag
recording whether an exception escaped the handler.  JS number arithmetic on
the small integer statistics is modelled exactly over `ℚ`; `Math.round x` is
`⌊x + 1/2⌋`.  A response body is modelled by its parsed shape: a JS body whose
`success` field is absent or not `true` behaves as `success := false`, since
the source only ever tests truthiness of `response.data.success`.
-/

namespace DashboardHome

/-- Record `Category` (DashboardHome.tsx lines 18-25); `who_edited` is optional. -/
structure Category where
  category_id : Nat
  category_name : String
  category_description : String
  who_edited : Option String
  created_at : String
  updated_at : String
  deriving DecidableEq, Repr

/-- Record `DashboardStats` (lines 27-32). -/
structure DashboardStats where
  total_books : Nat
  available_books : Nat
  active_borrowers : Nat
  total_transactions : Nat
  deriving DecidableEq, Repr

/-- Record `QuickStats` (lines 34-38). -/
structure QuickStats where
  books_added_today : Nat
  books_borrowed_today : Nat
  books_returned_today : Nat
  deriving DecidableEq, Repr

/-- The `formData` state slice (lines 58–62): three plain string fields. -/
structure FormData where
  category_name : String
  category_description : String
  who_edited : String
  deriving DecidableEq, Repr

/-- The eight `useState` slices of the component (lines 41–62). -/
structure ComponentState where
  categories : List Category
  dashboardStats : DashboardStats
  quickStats : QuickStats
  isLoading : Bool
  error : String
  showForm : Bool
  editingCategory : Option Category
  formData : FormData
  deriving DecidableEq, Repr

/-- Initial state of the component (the `useState` initialisers, lines 41–62). -/
def initialState : ComponentState :=
  { categories := []
    dashboardStats :=
      { total_books := 0, available_books := 0, active_borrowers := 0, total_transactions := 0 }
    quickStats :=
      { books_added_today := 0, books_borrowed_today := 0, books_returned_today := 0 }
    isLoading := false
    error := ""
    showForm := false
    editingCategory := none
    formData := { category_name := "", category_description := "", who_edited := "" } }

/-- The data carried by a thrown axios error, as far as the handlers read it:
`error.response?.data?.message` and `error.response?.data?.errors`.  `response`
is `none` when either `error.response` or `error.response.data` is absent.
`errors` is a field-name/message-list map in JS object-key order
(`Object.values(errors)[0]` reads the first entry). -/
structure ErrorPayload where
  message : Option String
  errors : Option (List (String × List String))
  deriving DecidableEq, Repr

/-- A thrown (rejected) axios call: a transport failure or a non-2xx response. -/
structure AxiosError where
  response : Option ErrorPayload
  deriving DecidableEq, Repr

/-- Parsed body of a 2xx create/update response
(`{ success, data?, message?, errors? }`, §6 of the interface shape; the
handlers read only `success` and `message` of a direct response). -/
structure MutationBody where
  success : Bool
  message : Option String
  errors : Option (List (String × List String))
  deriving DecidableEq, Repr

/-- Parsed body of a 2xx `GET /dashboard/summary` response. -/
structure SummaryBody where
  success : Bool
  data : DashboardStats
  deriving DecidableEq, Repr

/-- Parsed body of a 2xx `GET /categories` response. -/
structure CategoriesBody where
  success : Bool
  data : List Category
  deriving DecidableEq, Repr

/-- Parsed body of a 2xx `POST /archive/categories/{id}` response. -/
structure ArchiveBody where
  success : Bool
  deriving DecidableEq, Repr

/-- An HTTP request issued through the `api` collaborator, with its payload. -/
inductive ApiCall where
  | getDashboardSummary
  | getCategories
  | postCreateCategory (body : FormData)
  | postUpdateCategory (id : Nat) (body : FormData)
  | postArchiveCategory (id : Nat)
  deriving DecidableEq, Repr

/-- Result of running one handler: the state after it settles, the requests it
issued in order, and whether an exception escaped it (the only such case is the
JS `TypeError` from `Object.values(errors)[0][0]` when `errors` is `{}`;
`finally` still resets `isLoading` there). -/
structure HandlerResult where
  state : ComponentState
  calls : List ApiCall
  crashed : Bool
  deriving DecidableEq, Repr

/-- Handler `resetForm` (lines 148-153): clears the three form fields, drops the
editing target, hides the form and clears the error. -/
def resetForm (s : ComponentState) : ComponentState :=
  { s with
    formData := { category_name := "", category_description := "", who_edited := "" }
    editingCategory := none
    showForm := false
    error := "" }

/-- The request body built inline by both submit handlers (lines 161-164 and
196-199): the spread of `formData` with `who_edited` replaced by "Admin"
exactly when the string is empty (the JS or-else on a string is falsy only
for the empty string). -/
def submitRequestBody (f : FormData) : FormData :=
  { f with who_edited := if f.who_edited = "" then "Admin" else f.who_edited }

/-- The error string computed by the `catch` branch of the submit handlers
(lines 174–182 / 207–215): when `error.response?.data?.errors` is present, the
first message of the first field with "Validation failed" as fallback;
otherwise `error.response?.data?.message` with the generic fallback.  `none`
models the JS `TypeError` thrown when `errors` is a present but empty object
(`Object.values(errors)[0]` is `undefined`). -/
def submitFailureMessage (generic : String) (e : AxiosError) : Option String :=
  match e.response with
  | none => some generic
  | some payload =>
    match payload.errors with
    | none => some (payload.message.getD generic)
    | some [] => none
    | some ((_, msgs) :: _) =>
      some (match msgs.head? with
            | some m => if m = "" then "Validation failed" else m
            | none => "Validation failed")

/-- Handler `fetchDashboardSummary` (lines 97-107) applied to a resolved response:
on a body with `success: true` the whole `DashboardStats` value is replaced;
on any other 2xx body nothing happens; a thrown call sets the shared error
to `"Failed to fetch dashboard data"`. -/
def fetchDashboardSummary (s : ComponentState)
    (resp : Except AxiosError SummaryBody) : ComponentState :=
  match resp with
  | .ok body => if body.success then { s with dashboardStats := body.data } else s
  | .error _ => { s with error := "Failed to fetch dashboard data" }

/-- Handler `fetchCategories` (lines 110-120): same shape as the summary fetch, over
the category list, with error string `"Failed to fetch categories"`. -/
def fetchCategories (s : ComponentState)
    (resp : Except AxiosError CategoriesBody) : ComponentState :=
  match resp with
  | .ok body => if body.success then { s with categories := body.data } else s
  | .error _ => { s with error := "Failed to fetch categories" }

/-- Handler `fetchQuickStats` (lines 123-135): no remote call, stores the fixed
placeholder triple. -/
def fetchQuickStats (s : ComponentState) : ComponentState :=
  { s with quickStats :=
      { books_added_today := 2, books_borrowed_today := 5, books_returned_today := 3 } }

/-- Handler `handleCreateCategory` (lines 155-186).  Sets `isLoading`, clears the
error, posts `submitRequestBody formData`; on `success: true` runs `resetForm`
and issues the two refresh GETs; on a 2xx falsy `success` surfaces
its `message` field, falling back to "Failed to create category"; on a thrown call surfaces
`submitFailureMessage`; `finally` resets `isLoading`. -/
def handleCreateCategory (s : ComponentState)
    (resp : Except AxiosError MutationBody) : HandlerResult :=
  let s1 : ComponentState := { s with isLoading := true, error := "" }
  let call : ApiCall := ApiCall.postCreateCategory (submitRequestBody s.formData)
  match resp with
  | .ok body =>
    if body.success then
      { state := { resetForm s1 with isLoading := false }
        calls := [call, ApiCall.getCategories, ApiCall.getDashboardSummary]
        crashed := false }
    else
      { state := { s1 with
          error := body.message.getD "Failed to create category", isLoading := false }
        calls := [call]
        crashed := false }
  | .error e =>
    match submitFailureMessage "Failed to create category" e with
    | some msg =>
      { state := { s1 with error := msg, isLoading := false }
        calls := [call]
        crashed := false }
    | none =>
      { state := { s1 with isLoading := false }
        calls := [call]
        crashed := true }

/-- Handler `handleUpdateCategory` (lines 188-219).  Returns immediately when no
category is being edited; otherwise posts to the id of the editing target and, on
`success: true`, runs `resetForm` and refreshes only the category list. -/
def handleUpdateCategory (s : ComponentState)
    (resp : Except AxiosError MutationBody) : HandlerResult :=
  match s.editingCategory with
  | none => { state := s, calls := [], crashed := false }
  | some cat =>
    let s1 : ComponentState := { s with isLoading := true, error := "" }
    let call : ApiCall := ApiCall.postUpdateCategory cat.category_id (submitRequestBody s.formData)
    match resp with
    | .ok body =>
      if body.success then
        { state := { resetForm s1 with isLoading := false }
          calls := [call, ApiCall.getCategories]
          crashed := false }
      else
        { state := { s1 with
            error := body.message.getD "Failed to update category", isLoading := false }
          calls := [call]
          crashed := false }
    | .error e =>
      match submitFailureMessage "Failed to update category" e with
      | some msg =>
        { state := { s1 with error := msg, isLoading := false }
          calls := [call]
          crashed := false }
      | none =>
        { state := { s1 with isLoading := false }
          calls := [call]
          crashed := true }

/-- Handler `handleDeleteCategory` (lines 221-234).  Without confirmation nothing
happens; on `success: true` both refresh GETs are issued and no state slice
changes; on any other 2xx body nothing happens; on a thrown call the error is
set to `"Failed to delete category"` and nothing else changes. -/
def handleDeleteCategory (s : ComponentState) (id : Nat) (confirmed : Bool)
    (resp : Except AxiosError ArchiveBody) : HandlerResult :=
  if confirmed then
    match resp with
    | .ok body =>
      if body.success then
        { state := s
          calls := [ApiCall.postArchiveCategory id,
                    ApiCall.getCategories, ApiCall.getDashboardSummary]
          crashed := false }
      else
        { state := s, calls := [ApiCall.postArchiveCategory id], crashed := false }
    | .error _ =>
      { state := { s with error := "Failed to delete category" }
        calls := [ApiCall.postArchiveCategory id]
        crashed := false }
  else
    { state := s, calls := [], crashed := false }

/-- Handler `startEdit` (lines 236-244): records the editing target, pre-fills the form
(a missing `who_edited` becomes the empty string), shows the form.  It does
not touch the error slot. -/
def startEdit (s : ComponentState) (category : Category) : ComponentState :=
  { s with
    editingCategory := some category
    formData :=
      { category_name := category.category_name
        category_description := category.category_description
        who_edited := category.who_edited.getD "" }
    showForm := true }

/-- The `onClick` of the Add Category button (line 351): `setShowForm(true)` only. -/
def openCreateForm (s : ComponentState) : ComponentState :=
  { s with showForm := true }

/-- One user/network event hitting the component. -/
inductive Event where
  | openCreateForm
  | startEditCategory (c : Category)
  | cancelForm
  | submitCreate (resp : Except AxiosError MutationBody)
  | submitUpdate (resp : Except AxiosError MutationBody)
  | deleteCategory (id : Nat) (confirmed : Bool) (resp : Except AxiosError ArchiveBody)
  | summaryFetched (resp : Except AxiosError SummaryBody)
  | categoriesFetched (resp : Except AxiosError CategoriesBody)
  | quickStatsFetched

/-- Dispatch of one event to the handler the source wires it to.  The
synchronous handlers (`openCreateForm`, `startEdit`, `resetForm`, the fetch
completions and the quick-stats stub) issue no HTTP request. -/
def step (s : ComponentState) (ev : Event) : HandlerResult :=
  match ev with
  | .openCreateForm => { state := openCreateForm s, calls := [], crashed := false }
  | .startEditCategory c => { state := startEdit s c, calls := [], crashed := false }
  | .cancelForm => { state := resetForm s, calls := [], crashed := false }
  | .submitCreate resp => handleCreateCategory s resp
  | .submitUpdate resp => handleUpdateCategory s resp
  | .deleteCategory id confirmed resp => handleDeleteCategory s id confirmed resp
  | .summaryFetched resp => { state := fetchDashboardSummary s resp, calls := [], crashed := false }
  | .categoriesFetched resp => { state := fetchCategories s resp, calls := [], crashed := false }
  | .quickStatsFetched => { state := fetchQuickStats s, calls := [], crashed := false }

/-- JS `Math.round`: round half toward positive infinity, `⌊x + 1/2⌋`. -/
def jsRound (q : ℚ) : ℤ := ⌊q + 1 / 2⌋

/-- Derived metric `availabilityPercentage` (lines 247-249):
`total_books > 0 ? Math.round((available_books / total_books) * 100) : 0`. -/
def availabilityPercentage (s : DashboardStats) : ℤ :=
  if s.total_books > 0 then
    jsRound (((s.available_books : ℚ) / (s.total_books : ℚ)) * 100)
  else 0

/-- The Usage Rate expression (line 526):
`Math.round((total_transactions / Math.max(total_books, 1)) * 100)`. -/
def usageRate (s : DashboardStats) : ℤ :=
  jsRound (((s.total_transactions : ℚ) / ((max s.total_books 1 : ℕ) : ℚ)) * 100)

/-- The three-level label (lines 512–514):
the chain testing `70 <= p`, then `40 <= p`, yielding "Excellent", "Good" or
"Needs Attention". -/
def availabilityLabel (p : ℤ) : String :=
  if 70 ≤ p then "Excellent" else if 40 ≤ p then "Good" else "Needs Attention"

/-- The binary label (line 338): "well-stocked" when `50 <= p`, else
"getting busy". -/
def stockLabel (p : ℤ) : String :=
  if 50 ≤ p then "well-stocked" else "getting busy"


/-- A sample category used in the concrete scenarios below. -/
def sampleCategory : Category :=
  { category_id := 7
    category_name := "Fiction"
    category_description := "Novels and stories"
    who_edited := some "Librarian"
    created_at := "2024-01-01"
    updated_at := "2024-01-02" }

/-- A sample component state with loaded data and no pending error. -/
def sampleState : ComponentState :=
  { initialState with
    categories := [sampleCategory]
    dashboardStats :=
      { total_books := 12, available_books := 7, active_borrowers := 3, total_transactions := 40 } }

/-- The sample state while `sampleCategory` is being edited. -/
def editState : ComponentState :=
  { sampleState with editingCategory := some sampleCategory }

/-- Rounding a rational `a / t * 100` the JS way equals the natural-number
division `(200 * a + t) / (2 * t)` whenever `t` is positive. -/
theorem jsRound_div_nat (a t : ℕ) (ht : 0 < t) :
    jsRound (((a : ℚ) / (t : ℚ)) * 100) = ((200 * a + t) / (2 * t) : ℕ) := by
  have htQ : (t : ℚ) ≠ 0 := Nat.cast_ne_zero.mpr ht.ne'
  have hq : ((a : ℚ) / (t : ℚ)) * 100 + 1 / 2
      = ((200 * a + t : ℕ) : ℚ) / ((2 * t : ℕ) : ℚ) := by
    push_cast
    field_simp
    ring
  have hnn : (0 : ℚ) ≤ ((200 * a + t : ℕ) : ℚ) / ((2 * t : ℕ) : ℚ) := by positivity
  rw [jsRound, hq, ← Int.natCast_floor_eq_floor hnn, Nat.floor_div_nat, Nat.floor_natCast]

/-- C1: every create submission posts the spread of the form fields with
`who_edited` replaced by "Admin" exactly when it is the empty string (the other
fields verbatim), and on a response with `success: true` the form state is
cleared (empty fields, no editing target, form hidden) and both the
category-list GET and the dashboard-summary GET are issued again. -/
theorem create_submission_contract
    (s : ComponentState) (resp : Except AxiosError MutationBody)
    (body : MutationBody) (hs : body.success = true) :
    (step s (Event.submitCreate resp)).calls.head? =
      some (ApiCall.postCreateCategory
        { category_name := s.formData.category_name
          category_description := s.formData.category_description
          who_edited := if s.formData.who_edited = "" then "Admin" else s.formData.who_edited })
    ∧ (step s (Event.submitCreate (Except.ok body))).state.formData
        = { category_name := "", category_description := "", who_edited := "" }
    ∧ (step s (Event.submitCreate (Except.ok body))).state.editingCategory = none
    ∧ (step s (Event.submitCreate (Except.ok body))).state.showForm = false
    ∧ (step s (Event.submitCreate (Except.ok body))).calls
        = [ApiCall.postCreateCategory (submitRequestBody s.formData),
           ApiCall.getCategories, ApiCall.getDashboardSummary] := by
  refine ⟨?_, ?_, ?_, ?_, ?_⟩
  · cases resp with
    | ok b =>
      by_cases hb : b.success <;>
        simp [step, handleCreateCategory, submitRequestBody, hb]
    | error e =>
      cases h : submitFailureMessage "Failed to create category" e <;>
        simp [step, handleCreateCategory, submitRequestBody, h]
  all_goals simp [step, handleCreateCategory, resetForm, hs]

/-- C3: a successful update submission re-runs exactly the category-list fetch
and not the dashboard-summary fetch, while a successful create and a confirmed
successful archive issue both refresh GETs. -/
theorem update_success_refreshes_only_list
    (s : ComponentState) (c : Category) (id : Nat)
    (body : MutationBody) (ab : ArchiveBody)
    (hc : s.editingCategory = some c) (hs : body.success = true) (ha : ab.success = true) :
    (step s (Event.submitUpdate (Except.ok body))).calls
      = [ApiCall.postUpdateCategory c.category_id (submitRequestBody s.formData),
         ApiCall.getCategories]
    ∧ ApiCall.getDashboardSummary ∉ (step s (Event.submitUpdate (Except.ok body))).calls
    ∧ ApiCall.getDashboardSummary ∈ (step s (Event.submitCreate (Except.ok body))).calls
    ∧ ApiCall.getCategories ∈ (step s (Event.submitCreate (Except.ok body))).calls
    ∧ ApiCall.getDashboardSummary ∈ (step s (Event.deleteCategory id true (Except.ok ab))).calls
    ∧ ApiCall.getCategories ∈ (step s (Event.deleteCategory id true (Except.ok ab))).calls := by
  refine ⟨?_, ?_, ?_, ?_, ?_, ?_⟩ <;>
    simp [step, handleUpdateCategory, handleCreateCategory, handleDeleteCategory, hc, hs, ha]

/-- C5: an unconfirmed archive issues no request and changes nothing; a
confirmed archive whose response reports success issues the archive POST and
both refresh GETs while leaving every state slice unchanged; a confirmed
archive whose call throws sets the error to "Failed to delete category" and
mutates nothing else. -/
theorem archive_confirmation_and_effects
    (s : ComponentState) (id : Nat) (resp : Except AxiosError ArchiveBody)
    (body : ArchiveBody) (e : AxiosError) (hb : body.success = true) :
    step s (Event.deleteCategory id false resp)
      = { state := s, calls := [], crashed := false }
    ∧ (step s (Event.deleteCategory id true (Except.ok body))).calls
        = [ApiCall.postArchiveCategory id, ApiCall.getCategories, ApiCall.getDashboardSummary]
    ∧ (step s (Event.deleteCategory id true (Except.ok body))).state = s
    ∧ (step s (Event.deleteCategory id true (Except.error e))).state
        = { s with error := "Failed to delete category" }
    ∧ (step s (Event.deleteCategory id true (Except.error e))).calls
        = [ApiCall.postArchiveCategory id] := by
  refine ⟨?_, ?_, ?_, ?_, ?_⟩ <;> simp [step, handleDeleteCategory, hb]

/-- C9: for every category, `startEdit` followed by cancel restores the Idle
state — form fields cleared to empty strings, no editing target, form hidden —
and neither step issues any remote call. -/
theorem start_edit_then_cancel_restores_idle (s : ComponentState) (c : Category) :
    (step (step s (Event.startEditCategory c)).state Event.cancelForm).state.formData
      = { category_name := "", category_description := "", who_edited := "" }
    ∧ (step (step s (Event.startEditCategory c)).state Event.cancelForm).state.editingCategory
        = none
    ∧ (step (step s (Event.startEditCategory c)).state Event.cancelForm).state.showForm = false
    ∧ (step s (Event.startEditCategory c)).calls = []
    ∧ (step (step s (Event.startEditCategory c)).state Event.cancelForm).calls = [] :=
  ⟨rfl, rfl, rfl, rfl, rfl⟩

/-- C10: submitting the update form with no editing target is a total no-op:
the guard returns before `setIsLoading(true)`, so no request is issued, no
state slice changes and no exception escapes. -/
theorem update_without_editing_target_is_noop
    (s : ComponentState) (resp : Except AxiosError MutationBody)
    (h : s.editingCategory = none) :
    step s (Event.submitUpdate resp) = { state := s, calls := [], crashed := false } := by
  simp [step, handleUpdateCategory, h]

/-- C6: the derived metrics are pure functions of `DashboardStats`: when
`total_books > 0`, `availabilityPercentage` is the JS rounding of
`available_books / total_books * 100` — equivalently the exact natural number
`(200 * available_books + total_books) / (2 * total_books)` — when
`total_books = 0` it is `0` with no division performed, and `usageRate` is
the JS rounding of `total_transactions / max(total_books, 1) * 100`. -/
theorem derived_metrics_formulas (s : DashboardStats) :
    (0 < s.total_books →
      availabilityPercentage s
          = ⌊((s.available_books : ℚ) / (s.total_books : ℚ)) * 100 + 1 / 2⌋
        ∧ availabilityPercentage s
          = ((200 * s.available_books + s.total_books) / (2 * s.total_books) : ℕ))
    ∧ (s.total_books = 0 → availabilityPercentage s = 0)
    ∧ usageRate s
        = ⌊((s.total_transactions : ℚ) / ((max s.total_books 1 : ℕ) : ℚ)) * 100 + 1 / 2⌋
    ∧ usageRate s
        = ((200 * s.total_transactions + max s.total_books 1)
            / (2 * max s.total_books 1) : ℕ) := by
  refine ⟨fun ht => ⟨?_, ?_⟩, fun ht => ?_, ?_, ?_⟩
  · simp [availabilityPercentage, jsRound, ht]
  · rw [availabilityPercentage, if_pos ht, jsRound_div_nat _ _ ht]
  · simp [availabilityPercentage, ht]
  · rfl
  · exact jsRound_div_nat s.total_transactions (max s.total_books 1)
      (lt_max_of_lt_right one_pos)

/-- C7: the three-level label on `availabilityPercentage` is exactly
"Needs Attention" below 40, "Good" from 40 up to but excluding 70 and
"Excellent" from 70 up, while the independent binary label is "well-stocked"
from 50 up and "getting busy" below 50; with 100 total and 45 available books
the percentage is 45 and the label "Good", and with 0 total books the
percentage is 0 and the label "Needs Attention". -/
theorem availability_labels_thresholds (p : ℤ) :
    (p < 40 → availabilityLabel p = "Needs Attention")
    ∧ (40 ≤ p → p < 70 → availabilityLabel p = "Good")
    ∧ (70 ≤ p → availabilityLabel p = "Excellent")
    ∧ (50 ≤ p → stockLabel p = "well-stocked")
    ∧ (p < 50 → stockLabel p = "getting busy")
    ∧ availabilityPercentage
        { total_books := 100, available_books := 45, active_borrowers := 0,
          total_transactions := 0 } = 45
    ∧ availabilityLabel (availabilityPercentage
        { total_books := 100, available_books := 45, active_borrowers := 0,
          total_transactions := 0 }) = "Good"
    ∧ availabilityPercentage
        { total_books := 0, available_books := 0, active_borrowers := 0,
          total_transactions := 0 } = 0
    ∧ availabilityLabel (availabilityPercentage
        { total_books := 0, available_books := 0, active_borrowers := 0,
          total_transactions := 0 }) = "Needs Attention" := by
  have h45 : availabilityPercentage
      { total_books := 100, available_books := 45, active_borrowers := 0,
        total_transactions := 0 } = 45 := by
    norm_num [availabilityPercentage, jsRound]
  have h0 : availabilityPercentage
      { total_books := 0, available_books := 0, active_borrowers := 0,
        total_transactions := 0 } = 0 := by
    norm_num [availabilityPercentage]
  refine ⟨?_, ?_, ?_, ?_, ?_, h45, ?_, h0, ?_⟩
  · intro h
    rw [availabilityLabel, if_neg (by omega), if_neg (by omega)]
  · intro h1 h2
    rw [availabilityLabel, if_neg (by omega), if_pos h1]
  · intro h
    rw [availabilityLabel, if_pos h]
  · intro h
    rw [stockLabel, if_pos h]
  · intro h
    rw [stockLabel, if_neg (by omega)]
  · rw [h45, availabilityLabel, if_neg (by omega), if_pos (by omega)]
  · rw [h0, availabilityLabel, if_neg (by omega), if_neg (by omega)]

/-- C2 counterexample: a summary response body with `success: false` does not
set the shared error slot — `fetchDashboardSummary` returns the state
unchanged, so the error stays `""` instead of becoming
"Failed to fetch dashboard data" as the claim requires. -/
theorem summary_success_false_sets_no_error :
    fetchDashboardSummary sampleState
        (Except.ok { success := false,
                     data := { total_books := 99, available_books := 99,
                               active_borrowers := 99, total_transactions := 99 } })
      = sampleState
    ∧ sampleState.error ≠ "Failed to fetch dashboard data" := by
  exact ⟨rfl, by decide⟩

/-- C2 amended: on a transport-level failure (the GET throws) the previous
`DashboardStats` value is left unchanged and the shared error slot is set to
"Failed to fetch dashboard data"; a 2xx response whose body does not carry
`success: true` (a `success: false` body, or one that does not parse to that
shape) is NOT surfaced like a transport failure: it leaves both the stats and
the error slot unchanged. -/
theorem summary_fetch_failure_behavior
    (s : ComponentState) (e : AxiosError) (body : SummaryBody)
    (hb : body.success = false) :
    fetchDashboardSummary s (Except.error e)
        = { s with error := "Failed to fetch dashboard data" }
    ∧ (fetchDashboardSummary s (Except.error e)).dashboardStats = s.dashboardStats
    ∧ fetchDashboardSummary s (Except.ok body) = s := by
  refine ⟨rfl, rfl, ?_⟩
  simp [fetchDashboardSummary, hb]

/-- C2 amended witness: the amended behaviour at a concrete state, error and
body. -/
theorem summary_fetch_failure_behavior_witness :
    fetchDashboardSummary sampleState (Except.error { response := none })
      = { sampleState with error := "Failed to fetch dashboard data" } :=
  (summary_fetch_failure_behavior sampleState { response := none }
    { success := false,
      data := { total_books := 0, available_books := 0, active_borrowers := 0,
                total_transactions := 0 } } rfl).1

/-- C4 counterexample: a failed create whose 2xx response body reports
`success: false` and carries the non-empty validation-errors map
`{category_name: ["Name required"]}` does not surface "Name required"; the
handler reads only the `message` field of a non-thrown response and surfaces
the generic "Failed to create category". -/
theorem create_failure_errors_map_ignored :
    (step sampleState (Event.submitCreate (Except.ok
        { success := false, message := none,
          errors := some [("category_name", ["Name required"])] }))).state.error
      = "Failed to create category"
    ∧ ("Failed to create category" : String) ≠ "Name required" := by
  exact ⟨rfl, by decide⟩

/-- C4 amended: when a create/update submission fails by THROWING and the
thrown response carries a validation-errors map whose first field has a
non-empty first message, exactly that message is surfaced; a thrown failure
without an errors map surfaces the plain `message` of the response when
present, else the generic message; a 2xx `success: false` body surfaces its
`message` field with the generic fallback and its `errors` field is ignored;
in every failure case the form stays open with its fields unchanged. -/
theorem submit_failure_error_surfacing
    (s : ComponentState) (c : Category) (e : AxiosError) (payload : ErrorPayload)
    (fld m : String) (msgs : List String) (rest : List (String × List String))
    (body : MutationBody)
    (hre : e.response = some payload)
    (herr : payload.errors = some ((fld, m :: msgs) :: rest))
    (hm : m ≠ "")
    (hc : s.editingCategory = some c)
    (hb : body.success = false) :
    (step s (Event.submitCreate (Except.error e))).state.error = m
    ∧ (step s (Event.submitUpdate (Except.error e))).state.error = m
    ∧ (step s (Event.submitCreate (Except.error e))).state.formData = s.formData
    ∧ (step s (Event.submitCreate (Except.error e))).state.showForm = s.showForm
    ∧ (step s (Event.submitCreate (Except.ok body))).state.error
        = body.message.getD "Failed to create category"
    ∧ (step s (Event.submitUpdate (Except.ok body))).state.error
        = body.message.getD "Failed to update category"
    ∧ (step s (Event.submitCreate (Except.ok body))).state.formData = s.formData
    ∧ (step s (Event.submitCreate (Except.ok body))).state.showForm = s.showForm
    ∧ (∀ e2 : AxiosError, (∀ p, e2.response = some p → p.errors = none) →
        (step s (Event.submitCreate (Except.error e2))).state.error
          = (e2.response.bind ErrorPayload.message).getD "Failed to create category") := by
  refine ⟨?_, ?_, ?_, ?_, ?_, ?_, ?_, ?_, ?_⟩
  · simp [step, handleCreateCategory, submitFailureMessage, hre, herr, hm]
  · simp [step, handleUpdateCategory, submitFailureMessage, hre, herr, hm, hc]
  · simp [step, handleCreateCategory, submitFailureMessage, hre, herr, hm]
  · simp [step, handleCreateCategory, submitFailureMessage, hre, herr, hm]
  · simp [step, handleCreateCategory, hb]
  · simp [step, handleUpdateCategory, hb, hc]
  · simp [step, handleCreateCategory, hb]
  · simp [step, handleCreateCategory, hb]
  · intro e2 h2
    cases he2 : e2.response with
    | none => simp [step, handleCreateCategory, submitFailureMessage, he2]
    | some p =>
      have hp := h2 p he2
      simp [step, handleCreateCategory, submitFailureMessage, he2, hp]

/-- A thrown axios error whose response carries only the validation-errors
map with a single field and the single message "Name required". -/
def nameRequiredPayload : ErrorPayload :=
  { message := none, errors := some [("category_name", ["Name required"])] }

/-- C4 amended witness: a thrown create failure with the errors map holding
"Name required" under the first field surfaces exactly "Name required". -/
theorem submit_failure_error_surfacing_witness :
    (step editState (Event.submitCreate
        (Except.error { response := some nameRequiredPayload }))).state.error
      = "Name required" :=
  (submit_failure_error_surfacing editState sampleCategory
    { response := some nameRequiredPayload } nameRequiredPayload
    "category_name" "Name required" [] []
    { success := false, message := none, errors := none }
    rfl rfl (by decide) rfl rfl).1

/-- C8 counterexample: opening the create form (the Add Category `onClick` is
only `setShowForm(true)`) and starting an edit both leave a previously set
error visible, contrary to the claim that opening the create/edit form clears
a prior error. -/
theorem open_form_keeps_prior_error :
    (step { sampleState with error := "stale failure" } Event.openCreateForm).state.error
      = "stale failure"
    ∧ (step { sampleState with error := "stale failure" }
        (Event.startEditCategory sampleCategory)).state.error = "stale failure"
    ∧ ("stale failure" : String) ≠ "" := by
  exact ⟨rfl, rfl, by decide⟩

/-- C8 amended: a previously set error is cleared by cancelling the form and
by beginning a create/update submission — the handlers clear it before the
remote call, so after a successful submit it is empty and after a failed
submit it is replaced by the new failure message; opening the create form or
starting an edit leaves a prior error visible, as do a successful confirmed
archive and the quick-stats stub. -/
theorem error_clearing_operations
    (s : ComponentState) (c : Category) (id : Nat)
    (body fbody : MutationBody) (ab : ArchiveBody)
    (hs : body.success = true) (hf : fbody.success = false)
    (ha : ab.success = true) (hc : s.editingCategory = some c) :
    (step s Event.openCreateForm).state.error = s.error
    ∧ (step s (Event.startEditCategory c)).state.error = s.error
    ∧ (step s Event.cancelForm).state.error = ""
    ∧ (step s (Event.submitCreate (Except.ok body))).state.error = ""
    ∧ (step s (Event.submitUpdate (Except.ok body))).state.error = ""
    ∧ (step s (Event.submitCreate (Except.ok fbody))).state.error
        = fbody.message.getD "Failed to create category"
    ∧ (step s (Event.deleteCategory id true (Except.ok ab))).state.error = s.error
    ∧ (step s Event.quickStatsFetched).state.error = s.error := by
  refine ⟨rfl, rfl, rfl, ?_, ?_, ?_, ?_, rfl⟩
  · simp [step, handleCreateCategory, resetForm, hs]
  · simp [step, handleUpdateCategory, resetForm, hs, hc]
  · simp [step, handleCreateCategory, hf]
  · simp [step, handleDeleteCategory, ha]

/-- C8 amended witness: at a concrete editing state, cancelling clears the
error while opening the form preserves it. -/
theorem error_clearing_operations_witness :
    (step editState Event.cancelForm).state.error = ""
    ∧ (step editState Event.openCreateForm).state.error = editState.error :=
  ⟨(error_clearing_operations editState sampleCategory 7
      { success := true, message := none, errors := none }
      { success := false, message := none, errors := none }
      { success := true } rfl rfl rfl rfl).2.2.1,
   (error_clearing_operations editState sampleCategory 7
      { success := true, message := none, errors := none }
      { success := false, message := none, errors := none }
      { success := true } rfl rfl rfl rfl).1⟩

/-- C1 witness: from the sample state, a create submission with an empty
`who_edited` posts the body with editor label "Admin" and, on success, clears
the form and issues both refresh GETs. -/
theorem create_submission_contract_witness :
    (step sampleState (Event.submitCreate
        (Except.ok { success := true, message := none, errors := none }))).calls
      = [ApiCall.postCreateCategory
          { category_name := "", category_description := "", who_edited := "Admin" },
         ApiCall.getCategories, ApiCall.getDashboardSummary] := by
  have h := (create_submission_contract sampleState
      (Except.ok { success := true, message := none, errors := none })
      { success := true, message := none, errors := none } rfl).2.2.2.2
  simpa [sampleState, initialState, submitRequestBody] using h

/-- C3 witness: from the sample editing state, a successful update issues
exactly the update POST and the category-list GET. -/
theorem update_success_refreshes_only_list_witness :
    (step editState (Event.submitUpdate
        (Except.ok { success := true, message := none, errors := none }))).calls
      = [ApiCall.postUpdateCategory 7
          { category_name := "", category_description := "", who_edited := "Admin" },
         ApiCall.getCategories] := by
  have h := (update_success_refreshes_only_list editState sampleCategory 7
      { success := true, message := none, errors := none } { success := true }
      rfl rfl rfl).1
  simpa [editState, sampleState, initialState, sampleCategory, submitRequestBody] using h

/-- C5 witness: from the sample state, a confirmed archive of category 7 whose
response reports success issues the archive POST and both refresh GETs and
leaves the state unchanged. -/
theorem archive_confirmation_and_effects_witness :
    (step sampleState (Event.deleteCategory 7 true
        (Except.ok { success := true }))).calls
      = [ApiCall.postArchiveCategory 7, ApiCall.getCategories,
         ApiCall.getDashboardSummary]
    ∧ (step sampleState (Event.deleteCategory 7 true
        (Except.ok { success := true }))).state = sampleState :=
  ⟨(archive_confirmation_and_effects sampleState 7
      (Except.ok { success := true }) { success := true }
      { response := none } rfl).2.1,
   (archive_confirmation_and_effects sampleState 7
      (Except.ok { success := true }) { success := true }
      { response := none } rfl).2.2.1⟩

/-- C6 witness: the formulas evaluated at 100 total and 45 available books
give 45 percent, and at 0 total books give 0. -/
theorem derived_metrics_formulas_witness :
    availabilityPercentage
      { total_books := 100, available_books := 45, active_borrowers := 2,
        total_transactions := 30 } = 45
    ∧ availabilityPercentage
      { total_books := 0, available_books := 0, active_borrowers := 0,
        total_transactions := 7 } = 0 := by
  constructor
  · have h := ((derived_metrics_formulas
        { total_books := 100, available_books := 45, active_borrowers := 2,
          total_transactions := 30 }).1 (by norm_num)).2
    simpa using h
  · exact (derived_metrics_formulas
      { total_books := 0, available_books := 0, active_borrowers := 0,
        total_transactions := 7 }).2.1 rfl

/-- C7 witness: the threshold labels evaluated at the concrete percentages 45
and 55. -/
theorem availability_labels_thresholds_witness :
    availabilityLabel 45 = "Good" ∧ stockLabel 55 = "well-stocked" :=
  ⟨(availability_labels_thresholds 45).2.1 (by decide) (by decide),
   (availability_labels_thresholds 55).2.2.2.1 (by decide)⟩

/-- C10 witness: from the initial state (no editing target), an update
submission is a total no-op. -/
theorem update_without_editing_target_is_noop_witness :
    step initialState (Event.submitUpdate (Except.error { response := none }))
      = { state := initialState, calls := [], crashed := false } :=
  update_without_editing_target_is_noop initialState
    (Except.error { response := none }) rfl

end DashboardHome
